import Mathlib

/-!
Verification of the EdaBot conversational bot (src/main.py).

We shallowly embed the relevant parts of the program:
  * a `Json` tree type standing for the Python values produced by `json.loads`
    (no floats appear in any claim, so numbers are integers);
  * Python dictionary/attribute access semantics (`.get` with and without a
    default, truthiness, iteration, `str.join`), with the exceptions Python
    raises (`AttributeError`, `TypeError`) made explicit in an `Except` monad;
  * the normalization layer (`parse_typed_experiments`,
    `format_active_subscriptions`, `get_nested`, `build_account_summary`);
  * the persistence rows (`accounts`, `users`) and the SQL statements that
    write them (`log_account`, `upsert_user`, the admin grant);
  * the conversation step handlers of the add-account flow
    (`add_account_token`, `add_account_confirm`, `process_add_account`,
    `send_launch_request`) and the admin handlers.
-/

/-- JSON-like Python value (result of `json.loads`; object keys are strings). -/
inductive Json where
  | null : Json
  | bool : Bool → Json
  | num : Int → Json
  | str : String → Json
  | arr : List Json → Json
  | obj : List (String × Json) → Json

mutual
/-- Structural equality test on JSON values (Python `==` restricted to the
shapes that actually occur; numeric cross-type coercions do not arise). -/
def jsonBeq : Json → Json → Bool
  | .null, .null => true
  | .bool a, .bool b => a == b
  | .num a, .num b => a == b
  | .str a, .str b => a == b
  | .arr a, .arr b => jsonBeqList a b
  | .obj a, .obj b => jsonBeqObj a b
  | _, _ => false

def jsonBeqList : List Json → List Json → Bool
  | [], [] => true
  | a :: as, b :: bs => jsonBeq a b && jsonBeqList as bs
  | _, _ => false

def jsonBeqObj : List (String × Json) → List (String × Json) → Bool
  | [], [] => true
  | (k, v) :: as, (k2, v2) :: bs => k == k2 && jsonBeq v v2 && jsonBeqObj as bs
  | _, _ => false
end

mutual
theorem jsonBeq_iff : ∀ a b : Json, jsonBeq a b = true ↔ a = b
  | .null, b => by cases b <;> simp [jsonBeq]
  | .bool a, b => by cases b <;> simp [jsonBeq]
  | .num a, b => by cases b <;> simp [jsonBeq]
  | .str a, b => by cases b <;> simp [jsonBeq]
  | .arr l, b => by
      cases b <;> simp [jsonBeq]
      exact jsonBeqList_iff l _
  | .obj l, b => by
      cases b <;> simp [jsonBeq]
      exact jsonBeqObj_iff l _

theorem jsonBeqList_iff : ∀ a b : List Json, jsonBeqList a b = true ↔ a = b
  | [], b => by cases b <;> simp [jsonBeqList]
  | _ :: _, [] => by simp [jsonBeqList]
  | x :: xs, y :: ys => by
      simp [jsonBeqList, jsonBeq_iff x y, jsonBeqList_iff xs ys]

theorem jsonBeqObj_iff : ∀ a b : List (String × Json), jsonBeqObj a b = true ↔ a = b
  | [], b => by cases b <;> simp [jsonBeqObj]
  | _ :: _, [] => by simp [jsonBeqObj]
  | (k, v) :: xs, (k2, v2) :: ys => by
      simp [jsonBeqObj, jsonBeq_iff v v2, jsonBeqObj_iff xs ys, and_assoc]
end

instance : DecidableEq Json := fun a b =>
  decidable_of_iff (jsonBeq a b = true) (jsonBeq_iff a b)

/-- Python exceptions that the embedded code can raise. -/
inductive PyErr where
  | attributeError : PyErr
  | typeError : PyErr
  | httpError : PyErr
deriving DecidableEq, Repr

deriving instance DecidableEq for Except

/-- Key lookup in a JSON object (a materialized Python dict: keys unique,
first match). -/
def lookupKey (l : List (String × Json)) (k : String) : Option Json :=
  (l.find? (fun p => decide (p.1 = k))).map (·.2)

/-- Python truthiness (`bool(x)`) of a JSON-like value. -/
def truthy : Json → Bool
  | .null => false
  | .bool b => b
  | .num n => decide (n ≠ 0)
  | .str s => decide (s ≠ "")
  | .arr l => !l.isEmpty
  | .obj l => !l.isEmpty

namespace Json

/-- `x.get(k, dflt)` — raises `AttributeError` when `x` is not a dict. -/
def pyGetD (j : Json) (k : String) (dflt : Json) : Except PyErr Json :=
  match j with
  | .obj l => .ok ((lookupKey l k).getD dflt)
  | _ => .error .attributeError

/-- `x.get(k)` — `None` when the key is absent; raises `AttributeError`
when `x` is not a dict. -/
def pyGet (j : Json) (k : String) : Except PyErr Json :=
  j.pyGetD k .null

/-- The raw lookup underlying `x.get`: distinguishes an absent key from an
explicit `None`; raises when `x` is not a dict. -/
def pyLookup (j : Json) (k : String) : Except PyErr (Option Json) :=
  match j with
  | .obj l => .ok (lookupKey l k)
  | _ => .error .attributeError

/-- `for v in x`: lists yield elements, strings yield characters, dicts
yield their keys; other values raise `TypeError`. -/
def pyIter (j : Json) : Except PyErr (List Json) :=
  match j with
  | .arr l => .ok l
  | .str s => .ok (s.data.map (fun c => .str (String.mk [c])))
  | .obj l => .ok (l.map (fun p => .str p.1))
  | _ => .error .typeError

/-- `x.keys()` — raises `AttributeError` when `x` is not a dict. -/
def pyKeys (j : Json) : Except PyErr (List String) :=
  match j with
  | .obj l => .ok (l.map (·.1))
  | _ => .error .attributeError

end Json

/-- `a or b` on Python values. -/
def pyOr (a b : Json) : Json := if truthy a then a else b

mutual
/-- Python `repr` of a JSON-like value (strings quoted with single quotes;
escaping of exotic characters is not modelled). -/
def pyRepr : Json → String
  | .null => "None"
  | .bool true => "True"
  | .bool false => "False"
  | .num n => toString n
  | .str s => "'" ++ s ++ "'"
  | .arr l => "[" ++ pyReprList l ++ "]"
  | .obj l => "\x7b" ++ pyReprObj l ++ "\x7d"

def pyReprList : List Json → String
  | [] => ""
  | [x] => pyRepr x
  | x :: y :: rest => pyRepr x ++ ", " ++ pyReprList (y :: rest)

def pyReprObj : List (String × Json) → String
  | [] => ""
  | [p] => "'" ++ p.1 ++ "'" ++ ": " ++ pyRepr p.2
  | p :: q :: rest =>
      "'" ++ p.1 ++ "'" ++ ": " ++ pyRepr p.2 ++ ", " ++ pyReprObj (q :: rest)
end

/-- Python `str()` of a JSON-like value, as interpolated by an f-string. -/
def pyStr : Json → String
  | .str s => s
  | j => pyRepr j

mutual
/-- `json.dumps(x, ensure_ascii=False)` (string escaping of exotic
characters is not modelled). -/
def jsonDumps : Json → String
  | .null => "null"
  | .bool true => "true"
  | .bool false => "false"
  | .num n => toString n
  | .str s => "\"" ++ s ++ "\""
  | .arr l => "[" ++ jsonDumpsList l ++ "]"
  | .obj l => "\x7b" ++ jsonDumpsObj l ++ "\x7d"

def jsonDumpsList : List Json → String
  | [] => ""
  | [x] => jsonDumps x
  | x :: y :: rest => jsonDumps x ++ ", " ++ jsonDumpsList (y :: rest)

def jsonDumpsObj : List (String × Json) → String
  | [] => ""
  | [p] => "\"" ++ p.1 ++ "\"" ++ ": " ++ jsonDumps p.2
  | p :: q :: rest =>
      "\"" ++ p.1 ++ "\"" ++ ": " ++ jsonDumps p.2 ++ ", " ++ jsonDumpsObj (q :: rest)
end

/-- Whether a JSON-like value is hashable in Python, i.e. usable as a dict
key: lists and dicts are not. -/
def hashable : Json → Bool
  | .arr _ => false
  | .obj _ => false
  | _ => true

/-- A Python dict with JSON keys, as built by `parse_typed_experiments`.
Lookup is by structural key equality; the `True == 1` cross-type key
equality Python applies to bool/int keys does not arise in the theorems
below, whose hypotheses keep the stored keys strings. -/
def dictGet (d : List (Json × Json)) (k : Json) : Option Json :=
  (d.find? (fun p => decide (p.1 = k))).map (·.2)

/-- Insertion into a Python dict under a hashable key: overwrite in place,
else append (the raising assignment `d[k] = v` is `dictSet` below). -/
def dictInsert (d : List (Json × Json)) (k v : Json) : List (Json × Json) :=
  if d.any (fun p => decide (p.1 = k)) then
    d.map (fun p => if p.1 = k then (p.1, v) else p)
  else
    d ++ [(k, v)]

/-- `d[k] = v` on a Python dict: raises `TypeError: unhashable type` when
the key is a list or a dict (main.py:182 can be reached with such a
`name`), otherwise overwrite in place or append. -/
def dictSet (d : List (Json × Json)) (k v : Json) : Except PyErr (List (Json × Json)) :=
  if hashable k then .ok (dictInsert d k v) else .error .typeError

/-- `d.get(k, dflt)` on a Python dict with JSON keys. -/
def dictGetD (d : List (Json × Json)) (k : Json) (dflt : Json) : Json :=
  (dictGet d k).getD dflt

/-- `d.get(k)` on a string-keyed Python dict (the `parsed` record):
`None` when absent. -/
def pdGet (d : List (String × Json)) (k : String) : Json :=
  (lookupKey d k).getD .null

/-- `d[k] = v` on a string-keyed Python dict (the conversation buffer). -/
def pdSet (d : List (String × Json)) (k : String) (v : Json) : List (String × Json) :=
  if d.any (fun p => decide (p.1 = k)) then
    d.map (fun p => if p.1 = k then (p.1, v) else p)
  else
    d ++ [(k, v)]

/-- `", ".join(xs)` — raises `TypeError` when an element is not a string. -/
def pyJoinStr (sep : String) (l : List Json) : Except PyErr String := do
  let strs ← l.mapM (fun j =>
    match j with
    | Json.str s => Except.ok s
    | _ => Except.error PyErr.typeError)
  return String.intercalate sep strs

/-! ## Normalization layer (src/main.py lines 177–199, 280–321) -/

/-- The loop body of `parse_typed_experiments` (main.py:179–182): skip an
entry with a falsy `name`, otherwise assign `flags[name] = value or {}`. -/
def parse_typed_experiments_body (flags : List (Json × Json)) (item : Json) :
    Except PyErr (List (Json × Json)) := do
  let name ← item.pyGet "name"
  if truthy name then
    let v ← item.pyGet "value"
    dictSet flags name (if truthy v then v else Json.obj [])
  else
    return flags

/-- `parse_typed_experiments` (main.py:177–183): builds the flags dict from
the `items` iterable; entries with a falsy `name` are skipped, a falsy
`value` is replaced by `{}`, later entries overwrite earlier ones. -/
def parse_typed_experiments (items : Json) : Except PyErr (List (Json × Json)) := do
  let xs ← items.pyIter
  xs.foldlM parse_typed_experiments_body []

/-- One step of the list comprehension in `format_active_subscriptions`
(main.py:189): keep `sub.get("subscription_id")` when it is truthy. -/
def format_sub_body (acc : List Json) (sub : Json) : Except PyErr (List Json) := do
  let v ← sub.pyGet "subscription_id"
  return if truthy v then acc ++ [v] else acc

/-- `format_active_subscriptions` (main.py:186–190). -/
def format_active_subscriptions (active_subscriptions : Json) : Except PyErr String :=
  if truthy active_subscriptions = false then
    .ok "нет"
  else do
    let xs ← active_subscriptions.pyIter
    let ids ← xs.foldlM format_sub_body []
    if ids.isEmpty then
      return "есть"
    else
      pyJoinStr ", " ids

/-- `get_nested` (main.py:193–199): null-safe nested path lookup. -/
def get_nested (data : Json) (keys : List String) : Json :=
  match keys with
  | [] => data
  | key :: rest =>
    match data with
    | .obj l => get_nested ((lookupKey l key).getD .null) rest
    | _ => .null

/-- The literal rendered for missing data in the account summary. -/
def no_data : Json := Json.str "нет данных"

/-- `build_account_summary` (main.py:280–321), returning the summary text
and the `parsed` dict exactly as the source computes them; every `.get`
appears where the source performs it. -/
def build_account_summary (response_data : Json) :
    Except PyErr (String × List (String × Json)) := do
  let te ← response_data.pyGetD "typed_experiments" (Json.obj [])
  let itemsJ ← te.pyGetD "items" (Json.arr [])
  let flags ← parse_typed_experiments itemsJ
  let debt_flow := dictGetD flags (Json.str "turboapp_debt_flow") (Json.obj [])
  let subsHolder ← response_data.pyGetD "subscriptions" (Json.obj [])
  let active_subscriptions ← subsHolder.pyGetD "active_subscriptions" (Json.arr [])
  let can_make_more_orders := get_nested response_data ["orders_state", "can_make_more_orders"]
  -- summary_lines, f-string lookups in source order
  let auth ← response_data.pyGet "authorized"
  let tok ← response_data.pyGet "token_valid"
  let loyal ← response_data.pyGet "is_loyal"
  let subsText ← format_active_subscriptions active_subscriptions
  let dfEnabled ← debt_flow.pyGet "enabled"
  let dfLimitDisp ← debt_flow.pyGetD "debt_limit" no_data
  let phoneDisp ← response_data.pyGetD "phone" no_data
  let phonesDisp ← response_data.pyGetD "phones" (Json.obj [])
  let phoneKeys ← phonesDisp.pyKeys
  let ppidDisp ← response_data.pyGetD "personal_phone_id" no_data
  let pidDisp ← response_data.pyGetD "phone_id" no_data
  let uuidDisp ← response_data.pyGetD "uuid" no_data
  let idDisp ← response_data.pyGetD "id" no_data
  let summary_lines : List String := [
    "✅ <b>Аккаунт добавлен</b>",
    "🔐 Авторизация: <b>" ++ (if truthy auth then "да" else "нет") ++ "</b>",
    "🧩 Валидность токена: <b>" ++ (if truthy tok then "да" else "нет") ++ "</b>",
    "🚦 Разрешение на новые заказы: <b>" ++ pyStr (pyOr can_make_more_orders no_data) ++ "</b>",
    "⭐ Рейтинг: <b>" ++ pyStr (pyOr (get_nested response_data ["passenger_profile", "rating"]) no_data) ++ "</b>",
    "🧑‍💼 Статус пассажира: <b>" ++ pyStr (pyOr (get_nested response_data ["passenger_profile", "status", "value"]) no_data) ++ "</b>",
    "🎁 Лояльность: <b>" ++ (if truthy loyal then "да" else "нет") ++ "</b>",
    "📦 Активные подписки: <b>" ++ subsText ++ "</b>",
    "💳 Долговой флоу: <b>" ++ (if truthy dfEnabled then "включен" else "выключен") ++ "</b>",
    "📉 Лимит долга: <b>" ++ pyStr dfLimitDisp ++ "</b>",
    "📱 Телефон: <b>" ++ pyStr phoneDisp ++ "</b>",
    "📞 Телефоны (карта): <b>" ++ (let s := String.intercalate ", " phoneKeys; if s = "" then "нет данных" else s) ++ "</b>",
    "🆔 Личный phone id: <b>" ++ pyStr ppidDisp ++ "</b>",
    "🆔 Phone ID: <b>" ++ pyStr pidDisp ++ "</b>",
    "🆔 UUID клиента: <b>" ++ pyStr uuidDisp ++ "</b>",
    "🆔 Внутренний ID пользователя: <b>" ++ pyStr idDisp ++ "</b>"]
  let pAuth ← response_data.pyGet "authorized"
  let pTok ← response_data.pyGet "token_valid"
  let pLoyal ← response_data.pyGet "is_loyal"
  let pDfe ← debt_flow.pyGet "enabled"
  let pDl ← debt_flow.pyGet "debt_limit"
  let pPhone ← response_data.pyGet "phone"
  let pPhones ← response_data.pyGet "phones"
  let pPpid ← response_data.pyGet "personal_phone_id"
  let pPid ← response_data.pyGet "phone_id"
  let pUuid ← response_data.pyGet "uuid"
  let pId ← response_data.pyGet "id"
  let parsed : List (String × Json) := [
    ("authorized", pAuth),
    ("token_valid", pTok),
    ("can_make_more_orders", can_make_more_orders),
    ("rating", get_nested response_data ["passenger_profile", "rating"]),
    ("status_value", get_nested response_data ["passenger_profile", "status", "value"]),
    ("is_loyal", pLoyal),
    ("active_subscriptions", active_subscriptions),
    ("debt_flow_enabled", pDfe),
    ("debt_limit", pDl),
    ("phone", pPhone),
    ("phones", pPhones),
    ("personal_phone_id", pPpid),
    ("phone_id", pPid),
    ("uuid", pUuid),
    ("account_id", pId)]
  return (String.intercalate "\n" summary_lines, parsed)

/-! ## Persistence (src/main.py lines 30–174) -/

/-- One row of the `accounts` table, as inserted by `log_account`
(main.py:115–174). `created_at` (wall-clock time) is not modelled. -/
structure AccountRow where
  user_id : Int
  token2 : Json
  authorized : Int
  token_valid : Int
  can_make_more_orders : Json
  rating : Json
  status_value : Json
  is_loyal : Int
  active_subscriptions : String
  debt_flow_enabled : Int
  debt_limit : Json
  phone : Json
  phones : String
  personal_phone_id : Json
  phone_id : Json
  uuid : Json
  account_id : Json
  response_status : Int
  response_body : String
deriving DecidableEq

/-- The row built from the `parsed` dict by the INSERT of `log_account`. -/
def account_row (user_id : Int) (token2 : Json) (parsed : List (String × Json))
    (response_status : Int) (response_body : String) : AccountRow :=
  { user_id := user_id
    token2 := token2
    authorized := if truthy (pdGet parsed "authorized") then 1 else 0
    token_valid := if truthy (pdGet parsed "token_valid") then 1 else 0
    can_make_more_orders := pdGet parsed "can_make_more_orders"
    rating := pdGet parsed "rating"
    status_value := pdGet parsed "status_value"
    is_loyal := if truthy (pdGet parsed "is_loyal") then 1 else 0
    active_subscriptions := jsonDumps (pdGet parsed "active_subscriptions")
    debt_flow_enabled := if truthy (pdGet parsed "debt_flow_enabled") then 1 else 0
    debt_limit := pdGet parsed "debt_limit"
    phone := pdGet parsed "phone"
    phones := jsonDumps (pdGet parsed "phones")
    personal_phone_id := pdGet parsed "personal_phone_id"
    phone_id := pdGet parsed "phone_id"
    uuid := pdGet parsed "uuid"
    account_id := pdGet parsed "account_id"
    response_status := response_status
    response_body := response_body }

/-- `log_account` (main.py:115–174): append-only INSERT into `accounts`.
One caveat: sqlite3 parameter binding raises `InterfaceError` when a
container (list/dict) value is bound to a scalar column (e.g. a list-valued
`rating`); the model stores the JSON value instead. The parse-failure path
binds only `None`s and dump strings, where no such error can occur. -/
def log_account (user_id : Int) (token2 : Json) (parsed : List (String × Json))
    (response_status : Int) (response_body : String)
    (db : List AccountRow) : List AccountRow :=
  db ++ [account_row user_id token2 parsed response_status response_body]

/-- `token_exists` (main.py:107–112): `SELECT 1 FROM accounts WHERE token2 = ?`. -/
def token_exists (db : List AccountRow) (token2 : Json) : Bool :=
  db.any (fun r => decide (r.token2 = token2))

/-- One row of the `users` table (main.py:37–44); `created_at` not modelled. -/
structure UserRow where
  user_id : Int
  username : Option String
  first_name : Option String
  last_name : Option String
  is_allowed : Int
deriving DecidableEq

/-- `upsert_user` (main.py:77–96): INSERT ... ON CONFLICT(user_id) DO UPDATE
with `is_allowed = MAX(users.is_allowed, excluded.is_allowed)`. -/
def upsert_user (users : List UserRow) (uid : Int)
    (username first_name last_name : Option String) (admins : List Int) : List UserRow :=
  let is_admin : Int := if uid ∈ admins then 1 else 0
  if users.any (fun r => decide (r.user_id = uid)) then
    users.map (fun r =>
      if r.user_id = uid then
        { r with
          username := username
          first_name := first_name
          last_name := last_name
          is_allowed := max r.is_allowed is_admin }
      else r)
  else
    users ++ [⟨uid, username, first_name, last_name, is_admin⟩]

/-- The `admin_grant` branch of `admin_handle_user_id` (main.py:440–452):
INSERT ... ON CONFLICT(user_id) DO UPDATE SET `is_allowed = 1`. -/
def admin_grant (users : List UserRow) (target : Int) : List UserRow :=
  if users.any (fun r => decide (r.user_id = target)) then
    users.map (fun r => if r.user_id = target then { r with is_allowed := 1 } else r)
  else
    users ++ [⟨target, none, none, none, 1⟩]

/-- The stored `is_allowed` flag of a user (0 when the row is absent). -/
def get_allowed (users : List UserRow) (uid : Int) : Int :=
  ((users.find? (fun r => decide (r.user_id = uid))).map (·.is_allowed)).getD 0

/-! ## Remote call and the add-account pipeline (main.py 251–384) -/

/-- Outcome of the HTTP POST in `send_launch_request`: either the client
raises a transport error, or a response arrives with a status code, a body
text, and the result of `response.json()` on that body (`none` when the
body is not valid JSON). -/
inductive HttpResult where
  | raised : HttpResult
  | response : Int → String → Option Json → HttpResult
deriving DecidableEq

/-- `send_launch_request` (main.py:251–277). A transport exception
propagates (nothing catches it); a parse failure or a non-dict JSON value
yields `none` as the third component. -/
def send_launch_request (r : HttpResult) : Except PyErr (Int × String × Option Json) :=
  match r with
  | .raised => .error .httpError
  | .response status text j =>
      .ok (status, text,
        match j with
        | some (Json.obj l) => some (Json.obj l)
        | _ => none)

/-- The "could not parse" notice of `process_add_account` (main.py:334–337;
two adjacent string literals in the source concatenate). -/
def could_not_parse_msg : String :=
  "⚠️ Не удалось распарсить ответ сервера. Ответ сохранён в базе, проверьте token2 и попробуйте снова."

/-- The main-menu message text (main.py:216, 348–350). -/
def main_menu_text : String := "✨ Главное меню"

/-- Result of running one handler / pipeline step: how many launch requests
were issued, the messages sent, the `accounts` table afterwards, and either
normal completion or a propagated exception. -/
structure ProcResult where
  calls : Nat
  msgs : List String
  db : List AccountRow
  outcome : Except PyErr Unit
deriving DecidableEq

/-- `process_add_account` (main.py:324–350). -/
def process_add_account (r : HttpResult) (uid : Int) (token2 : Json)
    (db : List AccountRow) : ProcResult :=
  match send_launch_request r with
  | .error e => { calls := 1, msgs := [], db := db, outcome := .error e }
  | .ok (status, text, none) =>
      { calls := 1
        msgs := [could_not_parse_msg, main_menu_text]
        db := log_account uid token2 [] status text db
        outcome := .ok () }
  | .ok (status, text, some j) =>
      match build_account_summary j with
      | .error e => { calls := 1, msgs := [], db := db, outcome := .error e }
      | .ok (summary, parsed) =>
          { calls := 1
            msgs := [summary, main_menu_text]
            db := log_account uid token2 parsed status text db
            outcome := .ok () }

/-- Conversation state constants (main.py:23–27) and
`ConversationHandler.END`. -/
def ADD_ACCOUNT_TOKEN : Int := 0

def ADD_ACCOUNT_CONFIRM : Int := 1

def ADMIN_WAIT_USER_ID : Int := 2

def CONV_END : Int := -1

/-- Result of one conversation-handler turn: launch requests issued,
messages sent, the `accounts` table afterwards, and (unless an exception
propagated) the returned conversation state and the `user_data` buffer. -/
structure HandlerResult where
  calls : Nat
  msgs : List String
  db : List AccountRow
  outcome : Except PyErr (Int × List (String × Json))
deriving DecidableEq

/-- Python `str.strip()` with no argument: remove whitespace from both
ends (the embedding treats whitespace as `Char.isWhitespace`). -/
def py_strip (s : String) : String :=
  String.mk (((s.data.dropWhile Char.isWhitespace).reverse.dropWhile Char.isWhitespace).reverse)

/-- The duplicate-token confirmation prompt (main.py:363–366). -/
def dup_prompt : String := "⚠️ Такой token2 уже добавляли. Точно добавить этот аккаунт?"

/-- `add_account_token` (main.py:353–370). -/
def add_account_token (text : String) (user_data : List (String × Json))
    (db : List AccountRow) (r : HttpResult) (uid : Int) : HandlerResult :=
  let token2 := py_strip text
  let ud := pdSet user_data "token2" (.str token2)
  if token_exists db (.str token2) then
    { calls := 0, msgs := [dup_prompt], db := db
      outcome := .ok (ADD_ACCOUNT_CONFIRM, ud) }
  else
    let p := process_add_account r uid (.str token2) db
    { calls := p.calls, msgs := p.msgs, db := p.db
      outcome := match p.outcome with
        | .error e => .error e
        | .ok () => .ok (CONV_END, []) }

/-- `add_account_confirm` (main.py:373–384). Any callback data other than
`add_account_confirm_no` (the registered pattern also admits `..._yes`)
takes the confirm branch. -/
def add_account_confirm (data : String) (user_data : List (String × Json))
    (db : List AccountRow) (r : HttpResult) (uid : Int) : HandlerResult :=
  if data = "add_account_confirm_no" then
    { calls := 0, msgs := ["🔐 Отправьте другой token2:"], db := db
      outcome := .ok (ADD_ACCOUNT_TOKEN, []) }
  else
    let token2 := pdGet user_data "token2"
    let p := process_add_account r uid token2 db
    { calls := p.calls, msgs := "⏳ Проверяю token2..." :: p.msgs, db := p.db
      outcome := match p.outcome with
        | .error e => .error e
        | .ok () => .ok (CONV_END, []) }

/-! ## Administrative surface (main.py 387–468) -/

/-- The denial message of the admin gate. -/
def denial_msg : String := "⛔️ Нет доступа."

/-- `admin_menu` (main.py:387–402): message sent and returned conversation
state; the caller is checked against `ADMIN_IDS` (the `admins` list). -/
def admin_menu (uid : Int) (admins : List Int) : List String × Int :=
  if uid ∈ admins then
    (["🛠️ Админка"], CONV_END)
  else
    ([denial_msg], CONV_END)

/-- Result of the `admin_stats` handler: the number of SQL queries it
executes and the messages it sends. -/
structure AdminStatsResult where
  queries : Nat
  msgs : List String
deriving DecidableEq, Repr

/-- `admin_stats` (main.py:405–419): runs `SELECT COUNT(*) FROM accounts`
and `SELECT COUNT(*) FROM users` and replies with the statistics. The
source performs no `ADMIN_IDS` membership test in this handler, and the
handler is registered globally on the `admin_stats` callback pattern
(main.py:501), so `uid` and `admins` are unused. -/
def admin_stats (_uid : Int) (_admins : List Int)
    (users : List UserRow) (accounts : List AccountRow) : AdminStatsResult :=
  { queries := 2
    msgs := ["📊 <b>Статистика</b>\n\n👥 Пользователей: <b>" ++ toString users.length
      ++ "</b>\n👤 Аккаунтов: <b>" ++ toString accounts.length ++ "</b>"] }

/-- `admin_request_user_id` (main.py:422–430): gate, then store the chosen
action in `user_data` and prompt for the target user id. Returns the
messages sent, the next conversation state, and the buffer. -/
def admin_request_user_id (uid : Int) (admins : List Int) (data : String)
    (user_data : List (String × Json)) : List String × Int × List (String × Json) :=
  if uid ∈ admins then
    (["🆔 Введите ID пользователя:"], ADMIN_WAIT_USER_ID,
      pdSet user_data "admin_action" (.str data))
  else
    ([denial_msg], CONV_END, user_data)

/-! ## Refund submission (spec §4.3): no refund pipeline exists in
src/main.py, so the confirm step is modelled from the spec. -/

/-- Modelled from the spec: one `RefundRecord` (spec §3) — src/main.py
contains no refund pipeline, only the spec describes it. Timestamps, the
photo side channel and the remote call are outside this claim. -/
structure RefundRecord where
  user_id : Int
  token2 : String
  order_id : String
  message : String
  corr_id1 : String
  corr_id2 : String
  response_status : Int
  response_body : String
deriving DecidableEq

/-- Modelled from the spec: the first correlation identifier — 5 random
lowercase letters followed by 5 random digits; the random draws are passed
in explicitly. -/
def gen_corr_id1 (ls : Fin 5 → Fin 26) (ds : Fin 5 → Fin 10) : String :=
  String.mk ((List.finRange 5).map (fun i => Char.ofNat (97 + (ls i).val))
    ++ (List.finRange 5).map (fun i => Char.ofNat (48 + (ds i).val)))

/-- Modelled from the spec: the second correlation identifier — exactly 15
random digits. -/
def gen_corr_id2 (ds : Fin 15 → Fin 10) : String :=
  String.mk ((List.finRange 15).map (fun i => Char.ofNat (48 + (ds i).val)))

/-- Modelled from the spec: the confirm step of the refund flow (spec
§4.3) — generate the two correlation identifiers from fresh random draws
and persist exactly one `RefundRecord` capturing them alongside the raw
response. -/
def refund_confirm (uid : Int) (token2 order_id message : String)
    (ls : Fin 5 → Fin 26) (d5 : Fin 5 → Fin 10) (d15 : Fin 15 → Fin 10)
    (status : Int) (body : String) (db : List RefundRecord) : List RefundRecord :=
  db ++ [{ user_id := uid, token2 := token2, order_id := order_id, message := message
           corr_id1 := gen_corr_id1 ls d5, corr_id2 := gen_corr_id2 d15
           response_status := status, response_body := body }]

/-! ## Field-for-field consistency of summary and record (claim C5)

`build_account_summary` performs a separate `.get` for the displayed line
and for the persisted `parsed` entry of each field. The factored form below
extracts every per-field source value exactly once (`field_sources`) and
derives the summary (`render_summary_lines`) and the record
(`store_parsed`) from those shared values. -/

/-- The per-field source values that both the displayed summary and the
persisted `parsed` record are derived from. `Option` fields keep the raw
lookup so that the display default (`нет данных`) and the stored default
(`None`) are both derived from the same lookup. -/
structure FieldSrc where
  authorized : Json
  token_valid : Json
  is_loyal : Json
  can_make_more_orders : Json
  rating : Json
  status_value : Json
  active_subscriptions : Json
  debt_flow : Json
  phone : Option Json
  phones : Option Json
  personal_phone_id : Option Json
  phone_id : Option Json
  uuid : Option Json
  account_id : Option Json
deriving DecidableEq

/-- Extract each field's source value from the response, once. -/
def field_sources (response_data : Json) : Except PyErr FieldSrc := do
  let te ← response_data.pyGetD "typed_experiments" (Json.obj [])
  let itemsJ ← te.pyGetD "items" (Json.arr [])
  let flags ← parse_typed_experiments itemsJ
  let debt_flow := dictGetD flags (Json.str "turboapp_debt_flow") (Json.obj [])
  let subsHolder ← response_data.pyGetD "subscriptions" (Json.obj [])
  let active_subscriptions ← subsHolder.pyGetD "active_subscriptions" (Json.arr [])
  let auth ← response_data.pyGet "authorized"
  let tok ← response_data.pyGet "token_valid"
  let loyal ← response_data.pyGet "is_loyal"
  let phoneL ← response_data.pyLookup "phone"
  let phonesL ← response_data.pyLookup "phones"
  let ppidL ← response_data.pyLookup "personal_phone_id"
  let pidL ← response_data.pyLookup "phone_id"
  let uuidL ← response_data.pyLookup "uuid"
  let idL ← response_data.pyLookup "id"
  return { authorized := auth
           token_valid := tok
           is_loyal := loyal
           can_make_more_orders := get_nested response_data ["orders_state", "can_make_more_orders"]
           rating := get_nested response_data ["passenger_profile", "rating"]
           status_value := get_nested response_data ["passenger_profile", "status", "value"]
           active_subscriptions := active_subscriptions
           debt_flow := debt_flow
           phone := phoneL
           phones := phonesL
           personal_phone_id := ppidL
           phone_id := pidL
           uuid := uuidL
           account_id := idL }

/-- The displayed summary, as a function of the shared field sources. -/
def render_summary_lines (fs : FieldSrc) : Except PyErr String := do
  let subsText ← format_active_subscriptions fs.active_subscriptions
  let dfEnabled ← fs.debt_flow.pyGet "enabled"
  let dfLimitDisp ← fs.debt_flow.pyGetD "debt_limit" no_data
  let phoneKeys ← (fs.phones.getD (Json.obj [])).pyKeys
  return String.intercalate "\n" [
    "✅ <b>Аккаунт добавлен</b>",
    "🔐 Авторизация: <b>" ++ (if truthy fs.authorized then "да" else "нет") ++ "</b>",
    "🧩 Валидность токена: <b>" ++ (if truthy fs.token_valid then "да" else "нет") ++ "</b>",
    "🚦 Разрешение на новые заказы: <b>" ++ pyStr (pyOr fs.can_make_more_orders no_data) ++ "</b>",
    "⭐ Рейтинг: <b>" ++ pyStr (pyOr fs.rating no_data) ++ "</b>",
    "🧑‍💼 Статус пассажира: <b>" ++ pyStr (pyOr fs.status_value no_data) ++ "</b>",
    "🎁 Лояльность: <b>" ++ (if truthy fs.is_loyal then "да" else "нет") ++ "</b>",
    "📦 Активные подписки: <b>" ++ subsText ++ "</b>",
    "💳 Долговой флоу: <b>" ++ (if truthy dfEnabled then "включен" else "выключен") ++ "</b>",
    "📉 Лимит долга: <b>" ++ pyStr dfLimitDisp ++ "</b>",
    "📱 Телефон: <b>" ++ pyStr (fs.phone.getD no_data) ++ "</b>",
    "📞 Телефоны (карта): <b>" ++ (let s := String.intercalate ", " phoneKeys; if s = "" then "нет данных" else s) ++ "</b>",
    "🆔 Личный phone id: <b>" ++ pyStr (fs.personal_phone_id.getD no_data) ++ "</b>",
    "🆔 Phone ID: <b>" ++ pyStr (fs.phone_id.getD no_data) ++ "</b>",
    "🆔 UUID клиента: <b>" ++ pyStr (fs.uuid.getD no_data) ++ "</b>",
    "🆔 Внутренний ID пользователя: <b>" ++ pyStr (fs.account_id.getD no_data) ++ "</b>"]

/-- The persisted `parsed` record, as a function of the same shared field
sources. -/
def store_parsed (fs : FieldSrc) : Except PyErr (List (String × Json)) := do
  let pDfe ← fs.debt_flow.pyGet "enabled"
  let pDl ← fs.debt_flow.pyGet "debt_limit"
  return [
    ("authorized", fs.authorized),
    ("token_valid", fs.token_valid),
    ("can_make_more_orders", fs.can_make_more_orders),
    ("rating", fs.rating),
    ("status_value", fs.status_value),
    ("is_loyal", fs.is_loyal),
    ("active_subscriptions", fs.active_subscriptions),
    ("debt_flow_enabled", pDfe),
    ("debt_limit", pDl),
    ("phone", fs.phone.getD .null),
    ("phones", fs.phones.getD .null),
    ("personal_phone_id", fs.personal_phone_id.getD .null),
    ("phone_id", fs.phone_id.getD .null),
    ("uuid", fs.uuid.getD .null),
    ("account_id", fs.account_id.getD .null)]

/-- `build_account_summary`, factored through the shared field sources. -/
def build_account_summary_factored (response_data : Json) :
    Except PyErr (String × List (String × Json)) := do
  let fs ← field_sources response_data
  let s ← render_summary_lines fs
  let p ← store_parsed fs
  return (s, p)

theorem except_bind_ok {α β : Type} (a : α) (f : α → Except PyErr β) :
    (Except.ok a >>= f) = f a := rfl

theorem except_bind_err {α β : Type} (e : PyErr) (f : α → Except PyErr β) :
    ((Except.error e : Except PyErr α) >>= f) = Except.error e := rfl

/-- C5: For every parsed remote response, the displayed account summary and
the persisted record are field-for-field consistent: `build_account_summary`
equals its factored form, in which every per-field source value is extracted
exactly once (`field_sources`) and both the summary text
(`render_summary_lines`) and the persisted `parsed` record (`store_parsed`)
are computed from those shared values — so each displayed field is derived
from the very value that is stored. -/
theorem c5_summary_and_record_share_sources (d : Json) :
    build_account_summary d = build_account_summary_factored d := by
  cases d with
  | obj l =>
    simp only [build_account_summary, build_account_summary_factored, field_sources,
      render_summary_lines, store_parsed, Json.pyGet, Json.pyGetD, Json.pyLookup,
      except_bind_ok, except_bind_err, pure_bind]
    cases ht : (lookupKey l "typed_experiments").getD (Json.obj []) with
    | obj l2 =>
      simp only [except_bind_ok, except_bind_err, pure_bind]
      cases hp : parse_typed_experiments ((lookupKey l2 "items").getD (Json.arr [])) with
      | error e => simp only [hp, except_bind_ok, except_bind_err, pure_bind]
      | ok fl =>
        simp only [hp, except_bind_ok, except_bind_err, pure_bind]
        cases hs : (lookupKey l "subscriptions").getD (Json.obj []) with
        | obj l3 =>
          simp only [except_bind_ok, except_bind_err, pure_bind]
          cases hf : format_active_subscriptions ((lookupKey l3 "active_subscriptions").getD (Json.arr [])) with
          | error e => simp only [hf, except_bind_ok, except_bind_err, pure_bind]
          | ok subsText =>
            simp only [hf, except_bind_ok, except_bind_err, pure_bind]
            cases hdf : dictGetD fl (Json.str "turboapp_debt_flow") (Json.obj []) with
            | obj l4 =>
              simp only [except_bind_ok, except_bind_err, pure_bind]
              cases hph : ((lookupKey l "phones").getD (Json.obj [])).pyKeys with
              | error e => simp only [hph, except_bind_ok, except_bind_err, pure_bind]
              | ok phoneKeys => simp only [hph, except_bind_ok, except_bind_err, pure_bind]
            | null => rfl
            | bool b => rfl
            | num n => rfl
            | str s => rfl
            | arr a => rfl
        | null => rfl
        | bool b => rfl
        | num n => rfl
        | str s => rfl
        | arr a => rfl
    | null => rfl
    | bool b => rfl
    | num n => rfl
    | str s => rfl
    | arr a => rfl
  | null => rfl
  | bool b => rfl
  | num n => rfl
  | str s => rfl
  | arr a => rfl
def isObjB : Json → Bool
  | .obj _ => true
  | _ => false

def isArrB : Json → Bool
  | .arr _ => true
  | _ => false

def isStrB : Json → Bool
  | .str _ => true
  | _ => false

/-- The `name` an entry contributes to the flags dict (`item.get("name")`),
for an object entry. -/
def item_name (it : Json) : Json :=
  match it with
  | .obj kvs => (lookupKey kvs "name").getD .null
  | _ => .null

/-- The value an entry contributes (`item.get("value") or {}`), for an
object entry. -/
def item_value (it : Json) : Json :=
  match it with
  | .obj kvs =>
      let v := (lookupKey kvs "value").getD .null
      if truthy v then v else .obj []
  | _ => .obj []

/-- One step of the flags fold, as a pure function on object entries. -/
def parse_step (flags : List (Json × Json)) (it : Json) : List (Json × Json) :=
  if truthy (item_name it) then dictInsert flags (item_name it) (item_value it) else flags

/-- An `items` entry the parse loop processes without raising: an object
whose `name`, when truthy, is hashable (a non-hashable truthy name makes
`flags[name] = ...` raise `TypeError`, main.py:182). -/
def entry_ok (it : Json) : Bool :=
  isObjB it && (!truthy (item_name it) || hashable (item_name it))

/-- An `items` entry whose truthy `name` is a string — the shape on which
the flags mapping is also read back faithfully (string keys never collide
with Python's bool/int cross-type key equality). -/
def name_str_ok (it : Json) : Bool :=
  isObjB it && (!truthy (item_name it) || isStrB (item_name it))

theorem entry_ok_of_name_str_ok (it : Json) (h : name_str_ok it = true) :
    entry_ok it = true := by
  simp only [name_str_ok, entry_ok, Bool.and_eq_true, Bool.or_eq_true,
    Bool.not_eq_true'] at h ⊢
  refine ⟨h.1, ?_⟩
  rcases h.2 with h1 | h2
  · exact Or.inl h1
  · refine Or.inr ?_
    cases hv : item_name it <;> rw [hv] at h2 <;> first
      | rfl
      | simp [isStrB] at h2

theorem parse_body_obj (flags : List (Json × Json)) (kvs : List (String × Json))
    (h : truthy (item_name (Json.obj kvs)) = true →
      hashable (item_name (Json.obj kvs)) = true) :
    parse_typed_experiments_body flags (Json.obj kvs) = .ok (parse_step flags (Json.obj kvs)) := by
  simp only [parse_typed_experiments_body, Json.pyGet, Json.pyGetD, except_bind_ok,
    parse_step, item_name, item_value]
  by_cases hn : truthy ((lookupKey kvs "name").getD .null) = true
  · have hh : hashable ((lookupKey kvs "name").getD .null) = true := h hn
    simp [hn, dictSet, hh]
  · simp [hn]
    rfl

theorem parse_foldlM_eq_foldl (xs : List Json) (flags0 : List (Json × Json))
    (h : ∀ it ∈ xs, entry_ok it = true) :
    xs.foldlM parse_typed_experiments_body flags0 = .ok (xs.foldl parse_step flags0) := by
  induction xs generalizing flags0 with
  | nil => rfl
  | cons x rest ih =>
    have hx : entry_ok x = true := h x (by simp)
    cases x with
    | obj kvs =>
      have himp : truthy (item_name (Json.obj kvs)) = true →
          hashable (item_name (Json.obj kvs)) = true := by
        simp only [entry_ok, Bool.and_eq_true, Bool.or_eq_true, Bool.not_eq_true'] at hx
        intro ht
        rcases hx.2 with h1 | h2
        · rw [ht] at h1
          cases h1
        · exact h2
      rw [List.foldlM_cons, parse_body_obj _ _ himp, except_bind_ok, List.foldl_cons]
      exact ih _ (fun it hit => h it (by simp [hit]))
    | null => simp [entry_ok, isObjB] at hx
    | bool b => simp [entry_ok, isObjB] at hx
    | num n => simp [entry_ok, isObjB] at hx
    | str s => simp [entry_ok, isObjB] at hx
    | arr a => simp [entry_ok, isObjB] at hx

theorem parse_eq_fold (xs : List Json) (h : ∀ it ∈ xs, entry_ok it = true) :
    parse_typed_experiments (Json.arr xs) = .ok (xs.foldl parse_step []) := by
  simp only [parse_typed_experiments, Json.pyIter, except_bind_ok]
  exact parse_foldlM_eq_foldl xs [] h

theorem dictGet_cons (p : Json × Json) (rest : List (Json × Json)) (k : Json) :
    dictGet (p :: rest) k = if p.1 = k then some p.2 else dictGet rest k := by
  by_cases hp : p.1 = k <;> simp [dictGet, List.find?, hp]

theorem dictGet_map_set (d : List (Json × Json)) (k v : Json)
    (hany : d.any (fun p => decide (p.1 = k)) = true) :
    dictGet (d.map (fun p => if p.1 = k then (p.1, v) else p)) k = some v := by
  induction d with
  | nil => simp at hany
  | cons p rest ih =>
    simp only [List.map_cons]
    by_cases hp : p.1 = k
    · rw [if_pos hp, dictGet_cons]
      simp [hp]
    · rw [if_neg hp, dictGet_cons, if_neg hp]
      have h2 : rest.any (fun p => decide (p.1 = k)) = true := by
        simpa [hp] using hany
      exact ih h2

theorem dictGet_map_set_other (d : List (Json × Json)) (k v k' : Json) (h : k' ≠ k) :
    dictGet (d.map (fun p => if p.1 = k then (p.1, v) else p)) k' = dictGet d k' := by
  induction d with
  | nil => rfl
  | cons p rest ih =>
    simp only [List.map_cons]
    by_cases hp : p.1 = k
    · have hp2 : ¬ (p.1 = k') := by
        rw [hp]
        exact fun hh => h hh.symm
      rw [if_pos hp, dictGet_cons, dictGet_cons, if_neg hp2]
      simp only [if_neg hp2]
      exact ih
    · rw [if_neg hp, dictGet_cons, dictGet_cons]
      by_cases hp2 : p.1 = k'
      · rw [if_pos hp2, if_pos hp2]
      · rw [if_neg hp2, if_neg hp2]
        exact ih

theorem dictGet_append_single (d : List (Json × Json)) (k v : Json)
    (hany : d.any (fun p => decide (p.1 = k)) = false) :
    dictGet (d ++ [(k, v)]) k = some v := by
  induction d with
  | nil => simp [dictGet, List.find?]
  | cons p rest ih =>
    have hp : ¬ (p.1 = k) := by
      intro hh
      simp [hh] at hany
    have h2 : rest.any (fun p => decide (p.1 = k)) = false := by
      simpa [hp] using hany
    rw [List.cons_append, dictGet_cons, if_neg hp]
    exact ih h2

theorem dictGet_append_single_other (d : List (Json × Json)) (k v k' : Json) (h : k' ≠ k) :
    dictGet (d ++ [(k, v)]) k' = dictGet d k' := by
  induction d with
  | nil =>
    have hk : ¬ (k = k') := fun hh => h hh.symm
    simp [dictGet_cons, hk, dictGet]
  | cons p rest ih =>
    rw [List.cons_append, dictGet_cons, dictGet_cons]
    by_cases hp2 : p.1 = k'
    · rw [if_pos hp2, if_pos hp2]
    · rw [if_neg hp2, if_neg hp2]
      exact ih

theorem dictGet_dictInsert_self (d : List (Json × Json)) (k v : Json) :
    dictGet (dictInsert d k v) k = some v := by
  unfold dictInsert
  by_cases hany : d.any (fun p => decide (p.1 = k)) = true
  · simpa [hany] using dictGet_map_set d k v hany
  · have h2 : d.any (fun p => decide (p.1 = k)) = false := by
      simp only [Bool.not_eq_true] at hany
      exact hany
    simpa [h2] using dictGet_append_single d k v h2

theorem dictGet_dictInsert_other (d : List (Json × Json)) (k v k' : Json) (h : k' ≠ k) :
    dictGet (dictInsert d k v) k' = dictGet d k' := by
  unfold dictInsert
  by_cases hany : d.any (fun p => decide (p.1 = k)) = true
  · simpa [hany] using dictGet_map_set_other d k v k' h
  · have h2 : d.any (fun p => decide (p.1 = k)) = false := by
      simp only [Bool.not_eq_true] at hany
      exact hany
    simpa [h2] using dictGet_append_single_other d k v k' h

theorem foldl_parse_step_filter (xs : List Json) (flags0 : List (Json × Json)) :
    xs.foldl parse_step flags0 =
      (xs.filter (fun it => truthy (item_name it))).foldl parse_step flags0 := by
  induction xs generalizing flags0 with
  | nil => rfl
  | cons x rest ih =>
    by_cases hx : truthy (item_name x) = true
    · simp only [List.filter_cons, hx, if_true, List.foldl_cons]
      exact ih _
    · have hx2 : truthy (item_name x) = false := by
        simp only [Bool.not_eq_true] at hx
        exact hx
      simp only [List.filter_cons, hx2, List.foldl_cons, parse_step, hx2, if_neg, Bool.false_eq_true]
      rw [if_neg (by simp [hx2])]
      exact ih _

theorem dictGet_foldl_parse_step (xs : List Json) (n : Json) (hn : truthy n = true)
    (flags0 : List (Json × Json)) :
    dictGet (xs.foldl parse_step flags0) n =
      (match xs.reverse.find? (fun it => decide (item_name it = n)) with
        | some it => some (item_value it)
        | none => dictGet flags0 n) := by
  induction xs using List.reverseRecOn generalizing flags0 with
  | nil => simp
  | append_singleton ys x ih =>
    rw [List.foldl_append, List.foldl_cons, List.foldl_nil, List.reverse_append]
    simp only [List.reverse_singleton, List.singleton_append, List.find?]
    by_cases hx : item_name x = n
    · have htx : truthy (item_name x) = true := by rw [hx]; exact hn
      simp only [hx, decide_eq_true_eq, if_pos]
      rw [parse_step, if_pos htx, hx]
      exact dictGet_dictInsert_self _ n (item_value x)
    · simp only [decide_eq_true_eq, hx, if_neg, if_false]
      by_cases htx : truthy (item_name x) = true
      · rw [parse_step, if_pos htx]
        rw [dictGet_dictInsert_other _ _ _ _ (fun hh => hx hh.symm)]
        exact ih flags0
      · rw [parse_step, if_neg htx]
        exact ih flags0

/-- `sub.get("subscription_id")` for an object entry. -/
def sub_id (s : Json) : Json :=
  match s with
  | .obj kvs => (lookupKey kvs "subscription_id").getD .null
  | _ => .null

/-- A subscription entry the source can format without raising: an object
whose `subscription_id`, when truthy, is a string. -/
def sub_ok (s : Json) : Bool :=
  isObjB s && (!truthy (sub_id s) || isStrB (sub_id s))

/-- The identifiers the comprehension in `format_active_subscriptions`
collects, for well-shaped entries. -/
def extract_sub_ids (ss : List Json) : List String :=
  ss.filterMap (fun s =>
    match sub_id s with
    | .str t => if t = "" then none else some t
    | _ => none)

theorem format_sub_body_obj (acc : List Json) (kvs : List (String × Json)) :
    format_sub_body acc (Json.obj kvs) =
      .ok (if truthy (sub_id (Json.obj kvs)) then acc ++ [sub_id (Json.obj kvs)] else acc) := by
  simp only [format_sub_body, Json.pyGet, Json.pyGetD, except_bind_ok, sub_id]
  rfl

theorem format_foldlM_eq (ss : List Json) (acc : List Json)
    (h : ∀ s ∈ ss, sub_ok s = true) :
    ss.foldlM format_sub_body acc = .ok (acc ++ (extract_sub_ids ss).map Json.str) := by
  induction ss generalizing acc with
  | nil =>
    simp only [List.foldlM, extract_sub_ids, List.filterMap_nil, List.map_nil, List.append_nil]
    rfl
  | cons x rest ih =>
    have hx : sub_ok x = true := h x (by simp)
    have hobj : isObjB x = true := by
      simp only [sub_ok, Bool.and_eq_true] at hx
      exact hx.1
    have hstr : truthy (sub_id x) = true → isStrB (sub_id x) = true := by
      simp only [sub_ok, Bool.and_eq_true, Bool.or_eq_true, Bool.not_eq_true'] at hx
      intro ht
      rcases hx.2 with h1 | h2
      · rw [ht] at h1
        cases h1
      · exact h2
    cases x with
    | obj kvs =>
      rw [List.foldlM_cons, format_sub_body_obj, except_bind_ok]
      by_cases ht : truthy (sub_id (Json.obj kvs)) = true
      · rw [if_pos ht]
        have := hstr ht
        cases hv : sub_id (Json.obj kvs) with
        | str t =>
          have htne : ¬ (t = "") := by
            rw [hv] at ht
            simpa [truthy] using ht
          rw [ih _ (fun s hs => h s (by simp [hs]))]
          simp [extract_sub_ids, hv, htne]
        | null => rw [hv] at this; cases this
        | bool b => rw [hv] at this; cases this
        | num nn => rw [hv] at this; cases this
        | arr a => rw [hv] at this; cases this
        | obj o => rw [hv] at this; cases this
      · have ht2 : truthy (sub_id (Json.obj kvs)) = false := by
          simp only [Bool.not_eq_true] at ht
          exact ht
        rw [if_neg (by simp [ht2])]
        rw [ih _ (fun s hs => h s (by simp [hs]))]
        cases hv : sub_id (Json.obj kvs) with
        | str t =>
          have : t = "" := by
            rw [hv] at ht2
            simpa [truthy] using ht2
          simp [extract_sub_ids, hv, this]
        | null => simp [extract_sub_ids, hv]
        | bool b => simp [extract_sub_ids, hv]
        | num nn => simp [extract_sub_ids, hv]
        | arr a => simp [extract_sub_ids, hv]
        | obj o => simp [extract_sub_ids, hv]
    | null => simp [isObjB] at hobj
    | bool b => simp [isObjB] at hobj
    | num nn => simp [isObjB] at hobj
    | str t => simp [isObjB] at hobj
    | arr a => simp [isObjB] at hobj

theorem mapM_join_str (l : List String) :
    List.mapM (fun j => match j with
      | Json.str s => Except.ok s
      | _ => Except.error PyErr.typeError) (l.map Json.str) = .ok l := by
  induction l with
  | nil => rfl
  | cons x rest ih =>
    rw [List.map_cons, List.mapM_cons, ih]
    rfl

theorem pyJoinStr_map_str (sep : String) (l : List String) :
    pyJoinStr sep (l.map Json.str) = .ok (String.intercalate sep l) := by
  simp only [pyJoinStr, mapM_join_str, except_bind_ok]
  rfl

theorem format_active_subscriptions_eq (ss : List Json) (h : ∀ s ∈ ss, sub_ok s = true) :
    format_active_subscriptions (Json.arr ss) =
      .ok (if ss.isEmpty then "нет"
        else if (extract_sub_ids ss).isEmpty then "есть"
        else String.intercalate ", " (extract_sub_ids ss)) := by
  cases ss with
  | nil => rfl
  | cons x rest =>
    have htr : truthy (Json.arr (x :: rest)) = true := by simp [truthy]
    simp only [format_active_subscriptions, htr, Json.pyIter, except_bind_ok, List.isEmpty_cons,
      Bool.true_eq_false, if_false]
    rw [format_foldlM_eq _ _ h]
    simp only [except_bind_ok, List.nil_append]
    by_cases he : (extract_sub_ids (x :: rest)).isEmpty = true
    · rw [List.isEmpty_iff] at he
      simp [he]
      rfl
    · have hne : extract_sub_ids (x :: rest) ≠ [] := by
        intro hh
        rw [List.isEmpty_iff] at he
        exact he hh
      have hmap : ((extract_sub_ids (x :: rest)).map Json.str).isEmpty = false := by
        simp [List.isEmpty_eq_false, hne]
      simp only [hmap, Bool.false_eq_true, if_false, pyJoinStr_map_str]
      simp [List.isEmpty_eq_false, hne]

/-- A `typed_experiments.items` entry the source can handle without
raising — an object whose truthy `name` is hashable — and that keeps the
`turboapp_debt_flow` flag value a dict. -/
def item_ok (it : Json) : Bool :=
  entry_ok it &&
    (!(decide (item_name it = Json.str "turboapp_debt_flow")) || isObjB (item_value it))

theorem foldl_parse_step_df_obj (xs : List Json) (flags0 : List (Json × Json))
    (h : ∀ it ∈ xs, item_ok it = true)
    (h0 : isObjB (dictGetD flags0 (Json.str "turboapp_debt_flow") (Json.obj [])) = true) :
    isObjB (dictGetD (xs.foldl parse_step flags0) (Json.str "turboapp_debt_flow") (Json.obj [])) = true := by
  induction xs generalizing flags0 with
  | nil => exact h0
  | cons x rest ih =>
    rw [List.foldl_cons]
    refine ih _ (fun it hit => h it (by simp [hit])) ?_
    have hx : item_ok x = true := h x (by simp)
    simp only [item_ok, entry_ok, Bool.and_eq_true, Bool.or_eq_true, Bool.not_eq_true', decide_eq_false_iff_not] at hx
    rw [parse_step]
    by_cases htx : truthy (item_name x) = true
    · rw [if_pos htx]
      by_cases hk : item_name x = Json.str "turboapp_debt_flow"
      · rw [dictGetD, hk, dictGet_dictInsert_self]
        rcases hx.2 with h1 | h2
        · exact absurd hk h1
        · simpa using h2
      · rw [dictGetD, dictGet_dictInsert_other _ _ _ _ (fun hh => hk hh.symm)]
        exact h0
    · rw [if_neg htx]
      exact h0

/-- A response shape on which `build_account_summary` cannot raise: the
top level is an object; the nested container fields, where present, have
the container types the source dereferences (`typed_experiments` an object,
its `items` a list of object entries whose truthy `name` values are
hashable — a list- or dict-valued truthy name makes `flags[name] = ...`
raise — `subscriptions` an object, its `active_subscriptions` a list of
well-shaped entries, `phones` an object). -/
def well_shaped (d : Json) : Bool :=
  match d with
  | .obj l =>
      (match (lookupKey l "typed_experiments").getD (.obj []) with
        | .obj lte =>
            (match (lookupKey lte "items").getD (.arr []) with
              | .arr xs => xs.all item_ok
              | _ => false)
        | _ => false)
      &&
      (match (lookupKey l "subscriptions").getD (.obj []) with
        | .obj ls =>
            (match (lookupKey ls "active_subscriptions").getD (.arr []) with
              | .arr ss => ss.all sub_ok
              | _ => false)
        | _ => false)
      && isObjB ((lookupKey l "phones").getD (.obj []))
  | _ => false

/-- Whether an embedded Python computation completed without raising. -/
def isOkB {α : Type} : Except PyErr α → Bool
  | .ok _ => true
  | .error _ => false

theorem build_account_summary_total (d : Json) (h : well_shaped d = true) :
    isOkB (build_account_summary d) = true := by
  cases d with
  | obj l =>
    simp only [well_shaped] at h
    cases ht : (lookupKey l "typed_experiments").getD (Json.obj []) with
    | obj lte =>
      simp only [ht] at h
      cases hi : (lookupKey lte "items").getD (Json.arr []) with
      | arr xs =>
        simp only [hi] at h
        cases hs : (lookupKey l "subscriptions").getD (Json.obj []) with
        | obj ls =>
          simp only [hs] at h
          cases ha : (lookupKey ls "active_subscriptions").getD (Json.arr []) with
          | arr ss =>
            simp only [ha] at h
            simp only [Bool.and_eq_true, List.all_eq_true] at h
            obtain ⟨⟨hitems, hsubs⟩, hphones⟩ := h
            have hentry : ∀ it ∈ xs, entry_ok it = true := by
              intro it hit
              have := hitems it hit
              simp only [item_ok, Bool.and_eq_true] at this
              exact this.1
            simp only [build_account_summary, Json.pyGet, Json.pyGetD, ht, hi, hs, ha,
              except_bind_ok, except_bind_err]
            rw [parse_eq_fold xs hentry]
            simp only [except_bind_ok]
            rw [format_active_subscriptions_eq ss hsubs]
            simp only [except_bind_ok]
            have hdf : isObjB (dictGetD (xs.foldl parse_step [])
                (Json.str "turboapp_debt_flow") (Json.obj [])) = true := by
              refine foldl_parse_step_df_obj xs [] hitems ?_
              rfl
            cases hdfv : dictGetD (xs.foldl parse_step []) (Json.str "turboapp_debt_flow") (Json.obj []) with
            | obj l4 =>
              simp only [except_bind_ok]
              cases hph : (lookupKey l "phones").getD (Json.obj []) with
              | obj l5 => simp [Json.pyKeys, except_bind_ok, isOkB]
              | null => rw [hph] at hphones; simp [isObjB] at hphones
              | bool b => rw [hph] at hphones; simp [isObjB] at hphones
              | num n => rw [hph] at hphones; simp [isObjB] at hphones
              | str s => rw [hph] at hphones; simp [isObjB] at hphones
              | arr a => rw [hph] at hphones; simp [isObjB] at hphones
            | null => rw [hdfv] at hdf; simp [isObjB] at hdf
            | bool b => rw [hdfv] at hdf; simp [isObjB] at hdf
            | num n => rw [hdfv] at hdf; simp [isObjB] at hdf
            | str s => rw [hdfv] at hdf; simp [isObjB] at hdf
            | arr a => rw [hdfv] at hdf; simp [isObjB] at hdf
          | null => simp [ha] at h
          | bool b => simp [ha] at h
          | num n => simp [ha] at h
          | str s => simp [ha] at h
          | obj o => simp [ha] at h
        | null => simp [hs] at h
        | bool b => simp [hs] at h
        | num n => simp [hs] at h
        | str s => simp [hs] at h
        | arr a => simp [hs] at h
      | null => simp [hi] at h
      | bool b => simp [hi] at h
      | num n => simp [hi] at h
      | str s => simp [hi] at h
      | obj o => simp [hi] at h
    | null => simp [ht] at h
    | bool b => simp [ht] at h
    | num n => simp [ht] at h
    | str s => simp [ht] at h
    | arr a => simp [ht] at h
  | null => simp [well_shaped] at h
  | bool b => simp [well_shaped] at h
  | num n => simp [well_shaped] at h
  | str s => simp [well_shaped] at h
  | arr a => simp [well_shaped] at h

/-- Whether `send_launch_request` will treat a parsed body as a structured
object (`isinstance(response_json, dict)`). -/
def parses_as_object (j : Option Json) : Bool :=
  match j with
  | some (Json.obj _) => true
  | _ => false

/-- C9: answering "no" at the duplicate-credential confirmation performs no
remote call, writes no AccountRecord, clears the buffered credential, and
returns the flow to the awaiting-token step with a prompt for a different
credential. -/
theorem c9_decline_resets_flow (user_data : List (String × Json)) (db : List AccountRow)
    (r : HttpResult) (uid : Int) :
    add_account_confirm "add_account_confirm_no" user_data db r uid =
      { calls := 0, msgs := ["🔐 Отправьте другой token2:"], db := db
        outcome := .ok (ADD_ACCOUNT_TOKEN, []) } := rfl

/-- C4 (code bug): the aggregate-statistics admin entry point does not
check the caller against the allow-list: a non-admin caller (id 42, allow
list `[1]`) still gets both COUNT queries executed and the statistics
message instead of the denial, while `admin_menu` and
`admin_request_user_id` do deny the same caller. -/
theorem c4_admin_stats_missing_gate :
    admin_stats 42 [1] [] [] =
      { queries := 2
        msgs := ["📊 <b>Статистика</b>\n\n👥 Пользователей: <b>0</b>\n👤 Аккаунтов: <b>0</b>"] } ∧
    (admin_stats 42 [1] [] []).msgs ≠ [denial_msg] ∧
    admin_menu 42 [1] = ([denial_msg], CONV_END) ∧
    admin_request_user_id 42 [1] "admin_grant" [] = ([denial_msg], CONV_END, []) := by
  refine ⟨rfl, by decide, by decide, by decide⟩

/-- C2 (counterexample): on a transport error raised by the HTTP client,
`process_add_account` persists no AccountRecord and shows no notice — the
exception propagates — contradicting the claim that exactly one record is
persisted and a could-not-parse notice shown for every remote-call
failure. -/
theorem c2_counterexample :
    process_add_account HttpResult.raised 7 (Json.str "token-a") [] =
      { calls := 1, msgs := [], db := [], outcome := .error PyErr.httpError } := rfl

/-- C2 (amended): when an HTTP response arrives whose body does not parse
as a JSON object, exactly one AccountRecord is persisted with all
normalized fields at defaults and the reported status, the could-not-parse
notice is shown and the menu re-shown; a transport error, however,
propagates out of the handler with no record persisted and no notice. -/
theorem c2_parse_failure_handled_transport_error_not :
    (∀ (status : Int) (text : String) (j : Option Json) (uid : Int) (t : Json)
        (db : List AccountRow),
      parses_as_object j = false →
      process_add_account (HttpResult.response status text j) uid t db =
        { calls := 1, msgs := [could_not_parse_msg, main_menu_text]
          db := db ++ [account_row uid t [] status text], outcome := .ok () }) ∧
    (∀ (uid : Int) (t : Json) (db : List AccountRow),
      process_add_account HttpResult.raised uid t db =
        { calls := 1, msgs := [], db := db, outcome := .error PyErr.httpError }) := by
  constructor
  · intro status text j uid t db hj
    cases j with
    | none => rfl
    | some v =>
      cases v with
      | obj o => simp [parses_as_object] at hj
      | null => rfl
      | bool b => rfl
      | num n => rfl
      | str s => rfl
      | arr a => rfl
  · intro uid t db
    rfl

theorem c2_witness :
    parses_as_object (some (Json.num 3)) = false ∧
    process_add_account (HttpResult.response 500 "oops" (some (Json.num 3))) 7 (Json.str "t") [] =
      { calls := 1, msgs := [could_not_parse_msg, main_menu_text]
        db := [account_row 7 (Json.str "t") [] 500 "oops"], outcome := .ok () } :=
  ⟨rfl, c2_parse_failure_handled_transport_error_not.1 500 "oops" (some (Json.num 3)) 7
    (Json.str "t") [] rfl⟩

theorem process_add_account_calls (r : HttpResult) (uid : Int) (t : Json)
    (db : List AccountRow) : (process_add_account r uid t db).calls = 1 := by
  unfold process_add_account
  cases hs : send_launch_request r with
  | error e => rfl
  | ok v =>
    obtain ⟨status, text, j⟩ := v
    cases j with
    | none => rfl
    | some jj =>
      cases hb : build_account_summary jj with
      | error e => simp [hb]
      | ok p =>
        obtain ⟨s, parsed⟩ := p
        simp [hb]

/-- C3: a credential already stored among AccountRecords routes through the
duplicate-confirmation step exactly once: the token step issues no remote
call, keeps the table unchanged, buffers the credential and moves to the
confirmation state; a subsequent "yes" issues exactly one remote call and
never re-enters the confirmation state. -/
theorem c3_duplicate_confirmed_once (text : String) (user_data : List (String × Json))
    (db : List AccountRow) (r : HttpResult) (uid : Int)
    (h : token_exists db (Json.str (py_strip text)) = true) :
    add_account_token text user_data db r uid =
      { calls := 0, msgs := [dup_prompt], db := db
        outcome := .ok (ADD_ACCOUNT_CONFIRM, pdSet user_data "token2" (Json.str (py_strip text))) } ∧
    (∀ (ud2 : List (String × Json)) (r2 : HttpResult),
      (add_account_confirm "add_account_confirm_yes" ud2 db r2 uid).calls = 1 ∧
      (∀ st ud3,
        (add_account_confirm "add_account_confirm_yes" ud2 db r2 uid).outcome = .ok (st, ud3) →
        st = CONV_END ∧ ud3 = [])) := by
  constructor
  · simp [add_account_token, h]
  · intro ud2 r2
    have hne : ¬ ("add_account_confirm_yes" = "add_account_confirm_no") := by decide
    constructor
    · simp only [add_account_confirm, if_neg hne]
      exact process_add_account_calls r2 uid (pdGet ud2 "token2") db
    · intro st ud3
      simp only [add_account_confirm, if_neg hne]
      cases hp : (process_add_account r2 uid (pdGet ud2 "token2") db).outcome with
      | error e =>
        intro hh
        simp at hh
      | ok u =>
        cases u
        intro hh
        injection hh with h2
        injection h2 with h3 h4
        exact ⟨h3.symm, h4.symm⟩

theorem c3_witness :
    token_exists [account_row 1 (Json.str "abc") [] 200 "b"] (Json.str (py_strip "abc")) = true ∧
    add_account_token "abc" [] [account_row 1 (Json.str "abc") [] 200 "b"]
        (HttpResult.response 200 "b" none) 1 =
      { calls := 0, msgs := [dup_prompt], db := [account_row 1 (Json.str "abc") [] 200 "b"]
        outcome := .ok (ADD_ACCOUNT_CONFIRM, pdSet [] "token2" (Json.str (py_strip "abc"))) } :=
  ⟨by decide,
    (c3_duplicate_confirmed_once "abc" [] [account_row 1 (Json.str "abc") [] 200 "b"]
      (HttpResult.response 200 "b" none) 1 (by decide)).1⟩

theorem get_allowed_nil (i : Int) : get_allowed [] i = 0 := rfl

theorem get_allowed_cons (r : UserRow) (rest : List UserRow) (i : Int) :
    get_allowed (r :: rest) i = if r.user_id = i then r.is_allowed else get_allowed rest i := by
  by_cases hp : r.user_id = i <;> simp [get_allowed, List.find?, hp]

theorem get_allowed_zero_of_not_any (users : List UserRow) (i : Int)
    (h : users.any (fun r => decide (r.user_id = i)) = false) :
    get_allowed users i = 0 := by
  induction users with
  | nil => rfl
  | cons r rest ih =>
    have hr : ¬ (r.user_id = i) := by
      intro hh
      simp [hh] at h
    have h2 : rest.any (fun r => decide (r.user_id = i)) = false := by
      simpa [hr] using h
    rw [get_allowed_cons, if_neg hr]
    exact ih h2

/-- `is_allowed` stays positive under a map-style upsert whose update keeps
the user id and keeps a positive flag positive. -/
theorem get_allowed_map_pos (users : List UserRow) (uid : Int) (upd : UserRow → UserRow)
    (hid : ∀ r, (upd r).user_id = r.user_id)
    (hpos : ∀ r, 1 ≤ r.is_allowed → 1 ≤ (upd r).is_allowed) (i : Int)
    (h : 1 ≤ get_allowed users i) :
    1 ≤ get_allowed (users.map (fun r => if r.user_id = uid then upd r else r)) i := by
  induction users with
  | nil => exact h
  | cons r rest ih =>
    rw [get_allowed_cons] at h
    rw [List.map_cons, get_allowed_cons]
    by_cases hu : r.user_id = uid
    · rw [if_pos hu] at *
      by_cases hr : r.user_id = i
      · rw [if_pos hr] at h
        rw [if_pos (by rw [hid r]; exact hr)]
        exact hpos r h
      · rw [if_neg hr] at h
        rw [if_neg (by rw [hid r]; exact hr)]
        exact ih h
    · rw [if_neg hu] at *
      by_cases hr : r.user_id = i
      · rw [if_pos hr] at h ⊢
        exact h
      · rw [if_neg hr] at h ⊢
        exact ih h

theorem get_allowed_append_pos (users : List UserRow) (new : UserRow) (i : Int)
    (h : 1 ≤ get_allowed users i) :
    1 ≤ get_allowed (users ++ [new]) i := by
  induction users with
  | nil => exact absurd h (by simp [get_allowed_nil])
  | cons r rest ih =>
    rw [get_allowed_cons] at h
    rw [List.cons_append, get_allowed_cons]
    by_cases hr : r.user_id = i
    · rw [if_pos hr] at h ⊢
      exact h
    · rw [if_neg hr] at h ⊢
      exact ih h

/-- After the update branch of `upsert_user`, the stored flag of the
upserted user is the max of the old flag and the incoming flag. -/
theorem get_allowed_map_max (users : List UserRow) (uid : Int) (a : Int)
    (un fn ln : Option String)
    (hany : users.any (fun r => decide (r.user_id = uid)) = true) :
    get_allowed (users.map (fun r =>
      if r.user_id = uid then
        { r with username := un, first_name := fn, last_name := ln
                 is_allowed := max r.is_allowed a }
      else r)) uid = max (get_allowed users uid) a := by
  induction users with
  | nil => simp at hany
  | cons r rest ih =>
    rw [List.map_cons, get_allowed_cons, get_allowed_cons]
    by_cases hu : r.user_id = uid
    · rw [if_pos hu]
      simp only [if_pos hu]
    · rw [if_neg hu]
      simp only [if_neg hu]
      have h2 : rest.any (fun r => decide (r.user_id = uid)) = true := by
        simpa [hu] using hany
      exact ih h2

/-- C6: the per-user authorization flag is monotone. `upsert_user` never
lowers a granted flag (and on an existing row stores exactly the max of the
stored and incoming flags); the admin grant never lowers a granted flag
either. -/
theorem c6_is_allowed_monotone :
    (∀ (users : List UserRow) (uid : Int) (un fn ln : Option String) (admins : List Int)
        (i : Int),
      1 ≤ get_allowed users i →
      1 ≤ get_allowed (upsert_user users uid un fn ln admins) i) ∧
    (∀ (users : List UserRow) (target i : Int),
      1 ≤ get_allowed users i →
      1 ≤ get_allowed (admin_grant users target) i) ∧
    (∀ (users : List UserRow) (uid : Int) (un fn ln : Option String) (admins : List Int),
      users.any (fun r => decide (r.user_id = uid)) = true →
      get_allowed (upsert_user users uid un fn ln admins) uid =
        max (get_allowed users uid) (if uid ∈ admins then 1 else 0)) := by
  refine ⟨?_, ?_, ?_⟩
  · intro users uid un fn ln admins i h
    unfold upsert_user
    by_cases hany : users.any (fun r => decide (r.user_id = uid)) = true
    · rw [if_pos hany]
      exact get_allowed_map_pos users uid
        (fun r => { r with username := un, first_name := fn, last_name := ln, is_allowed := max r.is_allowed (if uid ∈ admins then 1 else 0) })
        (fun r => rfl) (fun r hr => le_trans hr (le_max_left _ _)) i h
    · rw [if_neg hany]
      exact get_allowed_append_pos users _ i h
  · intro users target i h
    unfold admin_grant
    by_cases hany : users.any (fun r => decide (r.user_id = target)) = true
    · rw [if_pos hany]
      exact get_allowed_map_pos users target (fun r => { r with is_allowed := 1 })
        (fun r => rfl) (fun r _ => le_refl 1) i h
    · rw [if_neg hany]
      exact get_allowed_append_pos users _ i h
  · intro users uid un fn ln admins hany
    unfold upsert_user
    rw [if_pos hany]
    exact get_allowed_map_max users uid _ un fn ln hany

theorem c6_witness :
    1 ≤ get_allowed [⟨5, none, none, none, 1⟩] 5 ∧
    1 ≤ get_allowed (upsert_user [⟨5, none, none, none, 1⟩] 5 none none none []) 5 ∧
    get_allowed (upsert_user [⟨5, none, none, none, 1⟩] 5 none none none []) 5 =
      max (get_allowed [⟨5, none, none, none, 1⟩] 5) 0 :=
  ⟨by decide,
    c6_is_allowed_monotone.1 [⟨5, none, none, none, 1⟩] 5 none none none [] 5 (by decide),
    by
      have h3 := c6_is_allowed_monotone.2.2 [⟨5, none, none, none, 1⟩] 5 none none none []
        (by decide)
      simpa using h3⟩

/-- C7: `format_active_subscriptions` satisfies exactly three cases on any
well-shaped subscription list (each entry an object whose truthy
`subscription_id` is a string): empty list — the none-fallback literal;
non-empty list with no truthy identifier — the exists-fallback literal;
otherwise the collected identifiers joined by the separator. -/
theorem c7_format_active_subscriptions_cases (ss : List Json)
    (h : ∀ s ∈ ss, sub_ok s = true) :
    format_active_subscriptions (Json.arr ss) =
      .ok (if ss.isEmpty then "нет"
        else if (extract_sub_ids ss).isEmpty then "есть"
        else String.intercalate ", " (extract_sub_ids ss)) :=
  format_active_subscriptions_eq ss h

theorem c7_witness :
    (∀ s ∈ ([Json.obj [("subscription_id", Json.str "sub-a")],
             Json.obj [("subscription_id", Json.str "")],
             Json.obj [("subscription_id", Json.str "sub-b")]] : List Json), sub_ok s = true) ∧
    format_active_subscriptions (Json.arr
      [Json.obj [("subscription_id", Json.str "sub-a")],
       Json.obj [("subscription_id", Json.str "")],
       Json.obj [("subscription_id", Json.str "sub-b")]]) = .ok "sub-a, sub-b" := by
  refine ⟨by decide, ?_⟩
  rw [c7_format_active_subscriptions_cases _ (by decide)]
  decide

/-- C10: building the flags mapping over object entries whose truthy
`name` is a string — entries with a missing or falsy `name` are omitted
(the fold over the list equals the fold over the list with them filtered
out), and for any truthy name the mapping holds the value of the LAST
entry carrying that name, with a falsy value coerced to the empty object
(both coercion and last-wins are expressed by `item_value` and the
reversed `find?`). An entry whose truthy `name` is a list or a dict is
outside this domain: there the program raises
`TypeError: unhashable type` at `flags[name] = ...` (main.py:182), and so
does the embedding (last conjunct). -/
theorem c10_flags_mapping (xs : List Json) (h : ∀ it ∈ xs, name_str_ok it = true) :
    parse_typed_experiments (Json.arr xs) =
      parse_typed_experiments (Json.arr (xs.filter (fun it => truthy (item_name it)))) ∧
    (∀ flags, parse_typed_experiments (Json.arr xs) = .ok flags →
      ∀ n : Json, truthy n = true →
        dictGet flags n =
          (xs.reverse.find? (fun it => decide (item_name it = n))).map item_value) ∧
    parse_typed_experiments (Json.arr
      [Json.obj [("name", Json.arr [Json.num 1]), ("value", Json.num 7)]]) =
      .error PyErr.typeError := by
  have he : ∀ it ∈ xs, entry_ok it = true :=
    fun it hit => entry_ok_of_name_str_ok it (h it hit)
  refine ⟨?_, ?_, by decide⟩
  · rw [parse_eq_fold xs he,
      parse_eq_fold _ (fun it hit => entry_ok_of_name_str_ok it
        (h it (List.mem_of_mem_filter hit))),
      foldl_parse_step_filter]
  · intro flags hflags n hn
    rw [parse_eq_fold xs he] at hflags
    injection hflags with hflags2
    rw [← hflags2, dictGet_foldl_parse_step xs n hn []]
    cases hfind : xs.reverse.find? (fun it => decide (item_name it = n)) with
    | some it => simp
    | none => simp [dictGet]

theorem c10_witness :
    (∀ it ∈ ([Json.obj [("name", Json.str "a"), ("value", Json.num 0)],
              Json.obj [("value", Json.num 1)],
              Json.obj [("name", Json.str "a"), ("value", Json.obj [("x", Json.num 1)])],
              Json.obj [("name", Json.str ""), ("value", Json.num 2)]] : List Json),
      name_str_ok it = true) ∧
    dictGet [(Json.str "a", Json.obj [("x", Json.num 1)])] (Json.str "a") =
      some (Json.obj [("x", Json.num 1)]) := by
  refine ⟨by decide, ?_⟩
  have h2 := (c10_flags_mapping
    [Json.obj [("name", Json.str "a"), ("value", Json.num 0)],
     Json.obj [("value", Json.num 1)],
     Json.obj [("name", Json.str "a"), ("value", Json.obj [("x", Json.num 1)])],
     Json.obj [("name", Json.str ""), ("value", Json.num 2)]] (by decide)).2.1
    [(Json.str "a", Json.obj [("x", Json.num 1)])] (by decide) (Json.str "a") (by decide)
  rw [h2]
  decide

/-- C1 (counterexample): normalization is not total — on the object whose
`typed_experiments` field is the number 5, `build_account_summary` raises
`AttributeError` (`.get` on a non-dict) instead of returning the field set
with defaults. -/
theorem c1_counterexample :
    build_account_summary (Json.obj [("typed_experiments", Json.num 5)]) =
      .error PyErr.attributeError := rfl

/-- C1 (amended): normalization is total on every input whose present
nested container fields are well-shaped (`well_shaped`, which also
requires truthy experiment names to be hashable): building the summary and
the parsed record never raises there; on the empty object it returns the
full fixed field set with the declared defaults; and just outside that
domain — an items entry whose truthy `name` is the list `[1]` — the
builder raises `TypeError` exactly as `flags[name] = ...` does
(main.py:182). -/
theorem c1_normalization_total_on_well_shaped :
    (∀ d : Json, well_shaped d = true → isOkB (build_account_summary d) = true) ∧
    build_account_summary (Json.obj [("typed_experiments", Json.obj [("items",
      Json.arr [Json.obj [("name", Json.arr [Json.num 1]), ("value", Json.num 7)]])])]) =
      .error PyErr.typeError ∧
    build_account_summary (Json.obj []) =
      .ok ("✅ <b>Аккаунт добавлен</b>\n🔐 Авторизация: <b>нет</b>\n🧩 Валидность токена: <b>нет</b>\n🚦 Разрешение на новые заказы: <b>нет данных</b>\n⭐ Рейтинг: <b>нет данных</b>\n🧑‍💼 Статус пассажира: <b>нет данных</b>\n🎁 Лояльность: <b>нет</b>\n📦 Активные подписки: <b>нет</b>\n💳 Долговой флоу: <b>выключен</b>\n📉 Лимит долга: <b>нет данных</b>\n📱 Телефон: <b>нет данных</b>\n📞 Телефоны (карта): <b>нет данных</b>\n🆔 Личный phone id: <b>нет данных</b>\n🆔 Phone ID: <b>нет данных</b>\n🆔 UUID клиента: <b>нет данных</b>\n🆔 Внутренний ID пользователя: <b>нет данных</b>",
        [("authorized", Json.null),
         ("token_valid", Json.null),
         ("can_make_more_orders", Json.null),
         ("rating", Json.null),
         ("status_value", Json.null),
         ("is_loyal", Json.null),
         ("active_subscriptions", Json.arr []),
         ("debt_flow_enabled", Json.null),
         ("debt_limit", Json.null),
         ("phone", Json.null),
         ("phones", Json.null),
         ("personal_phone_id", Json.null),
         ("phone_id", Json.null),
         ("uuid", Json.null),
         ("account_id", Json.null)]) :=
  ⟨build_account_summary_total, by decide, by set_option maxRecDepth 4000 in decide⟩

theorem c1_witness :
    well_shaped (Json.obj [("authorized", Json.bool true),
      ("subscriptions", Json.obj [("active_subscriptions",
        Json.arr [Json.obj [("subscription_id", Json.str "s1")]])])]) = true ∧
    isOkB (build_account_summary (Json.obj [("authorized", Json.bool true),
      ("subscriptions", Json.obj [("active_subscriptions",
        Json.arr [Json.obj [("subscription_id", Json.str "s1")]])])])) = true :=
  ⟨by decide,
    c1_normalization_total_on_well_shaped.1 _ (by decide)⟩

theorem letter_char_isLower : ∀ a : Fin 26, (Char.ofNat (97 + a.val)).isLower = true := by decide

theorem digit_char_isDigit : ∀ a : Fin 10, (Char.ofNat (48 + a.val)).isDigit = true := by decide

theorem letter_char_inj : ∀ a b : Fin 26,
    Char.ofNat (97 + a.val) = Char.ofNat (97 + b.val) → a = b := by decide

theorem digit_char_inj : ∀ a b : Fin 10,
    Char.ofNat (48 + a.val) = Char.ofNat (48 + b.val) → a = b := by decide

theorem gen_corr_id1_inj (ls ls' : Fin 5 → Fin 26) (d5 d5' : Fin 5 → Fin 10)
    (h : gen_corr_id1 ls d5 = gen_corr_id1 ls' d5') : ls = ls' ∧ d5 = d5' := by
  unfold gen_corr_id1 at h
  injection h with hdata
  have hlen : ((List.finRange 5).map (fun i => Char.ofNat (97 + (ls i).val))).length =
      ((List.finRange 5).map (fun i => Char.ofNat (97 + (ls' i).val))).length := by
    simp
  obtain ⟨hA, hB⟩ := List.append_inj hdata hlen
  constructor
  · funext i
    exact letter_char_inj _ _ (List.map_inj_left.mp hA i (List.mem_finRange i))
  · funext i
    exact digit_char_inj _ _ (List.map_inj_left.mp hB i (List.mem_finRange i))

theorem gen_corr_id2_inj (d15 d15' : Fin 15 → Fin 10)
    (h : gen_corr_id2 d15 = gen_corr_id2 d15') : d15 = d15' := by
  unfold gen_corr_id2 at h
  injection h with hdata
  funext i
  exact digit_char_inj _ _ (List.map_inj_left.mp hdata i (List.mem_finRange i))

/-- C8 (spec-modelled): a confirmed refund submission persists exactly one
RefundRecord; its first correlation identifier is 5 lowercase letters
followed by 5 digits, its second is exactly 15 digits; and the generators
are injective in the random draws, so two submissions can share an
identifier only if they drew the very same random choices. -/
theorem c8_refund_record_ids (uid : Int) (token2 order_id message : String)
    (ls : Fin 5 → Fin 26) (d5 : Fin 5 → Fin 10) (d15 : Fin 15 → Fin 10)
    (status : Int) (body : String) (db : List RefundRecord) :
    (refund_confirm uid token2 order_id message ls d5 d15 status body db).length =
      db.length + 1 ∧
    refund_confirm uid token2 order_id message ls d5 d15 status body db =
      db ++ [{ user_id := uid, token2 := token2, order_id := order_id, message := message
               corr_id1 := gen_corr_id1 ls d5, corr_id2 := gen_corr_id2 d15
               response_status := status, response_body := body }] ∧
    (gen_corr_id1 ls d5).length = 10 ∧
    (∀ c ∈ (gen_corr_id1 ls d5).data.take 5, c.isLower = true) ∧
    (∀ c ∈ (gen_corr_id1 ls d5).data.drop 5, c.isDigit = true) ∧
    (gen_corr_id2 d15).length = 15 ∧
    (∀ c ∈ (gen_corr_id2 d15).data, c.isDigit = true) ∧
    (∀ (ls' : Fin 5 → Fin 26) (d5' : Fin 5 → Fin 10),
      gen_corr_id1 ls' d5' = gen_corr_id1 ls d5 → ls' = ls ∧ d5' = d5) ∧
    (∀ d15' : Fin 15 → Fin 10, gen_corr_id2 d15' = gen_corr_id2 d15 → d15' = d15) := by
  have hA : ((List.finRange 5).map (fun i => Char.ofNat (97 + (ls i).val))).length = 5 := by
    simp
  refine ⟨by simp [refund_confirm], rfl, ?_, ?_, ?_, ?_, ?_,
    fun ls' d5' h => gen_corr_id1_inj ls' ls d5' d5 h,
    fun d15' h => gen_corr_id2_inj d15' d15 h⟩
  · simp [gen_corr_id1, String.length]
  · intro c hc
    set A := (List.finRange 5).map (fun i => Char.ofNat (97 + (ls i).val)) with hAdef
    set B := (List.finRange 5).map (fun i => Char.ofNat (48 + (d5 i).val)) with hBdef
    have hc2 : c ∈ List.take 5 (A ++ B) := hc
    rw [← hA, List.take_left] at hc2
    rw [hAdef] at hc2
    obtain ⟨i, _, rfl⟩ := List.mem_map.mp hc2
    exact letter_char_isLower (ls i)
  · intro c hc
    set A := (List.finRange 5).map (fun i => Char.ofNat (97 + (ls i).val)) with hAdef
    set B := (List.finRange 5).map (fun i => Char.ofNat (48 + (d5 i).val)) with hBdef
    have hc2 : c ∈ List.drop 5 (A ++ B) := hc
    rw [← hA, List.drop_left] at hc2
    rw [hBdef] at hc2
    obtain ⟨i, _, rfl⟩ := List.mem_map.mp hc2
    exact digit_char_isDigit (d5 i)
  · simp [gen_corr_id2, String.length]
  · intro c hc
    unfold gen_corr_id2 at hc
    obtain ⟨i, _, rfl⟩ := List.mem_map.mp hc
    exact digit_char_isDigit (d15 i)

/-- Fixed random draws used by the C8 witness. -/
def draw_letters : Fin 5 → Fin 26 := fun _ => ⟨0, by omega⟩

def draw_digits5 : Fin 5 → Fin 10 := fun _ => ⟨1, by omega⟩

def draw_digits15 : Fin 15 → Fin 10 := fun _ => ⟨2, by omega⟩

theorem c8_witness :
    (refund_confirm 1 "tok" "ord" "msg" draw_letters draw_digits5 draw_digits15
      200 "ok" []).length = 0 + 1 ∧
    (draw_letters = draw_letters ∧ draw_digits5 = draw_digits5) :=
  ⟨(c8_refund_record_ids 1 "tok" "ord" "msg" draw_letters draw_digits5 draw_digits15
      200 "ok" []).1,
    (c8_refund_record_ids 1 "tok" "ord" "msg" draw_letters draw_digits5 draw_digits15
      200 "ok" []).2.2.2.2.2.2.2.1 draw_letters draw_digits5 rfl⟩
